import Mathlib

/-!
Verification of the Overpass-result-to-GeoJSON conversion engine in
`src/core/overpass_client.py`.

We embed parsed Python/JSON values as the inductive type `JValue`.
JSON `null` and Python `None` coincide (as they do after `json.loads`),
numbers are modelled exactly as rationals (the code performs no arithmetic
on them, only copying and equality tests, so this is faithful), and
dictionaries are association lists with distinct string keys (the shape
`json.loads` produces).  Python operations that can raise (`d[k]`,
attribute access on a non-dict, iterating a non-iterable) are embedded in
the `Except String` monad; the error string names the Python exception
class that would be raised.
-/

inductive JValue : Type where
  | null : JValue
  | bool : Bool → JValue
  | num : ℚ → JValue
  | str : String → JValue
  | arr : List JValue → JValue
  | obj : List (String × JValue) → JValue

mutual

def JValue.beq : JValue → JValue → Bool
  | .null, .null => true
  | .bool a, .bool b => a == b
  | .num a, .num b => a == b
  | .str a, .str b => a == b
  | .arr xs, .arr ys => JValue.beqList xs ys
  | .obj xs, .obj ys => JValue.beqObj xs ys
  | _, _ => false

def JValue.beqList : List JValue → List JValue → Bool
  | [], [] => true
  | x :: xs, y :: ys => JValue.beq x y && JValue.beqList xs ys
  | _, _ => false

def JValue.beqObj : List (String × JValue) → List (String × JValue) → Bool
  | [], [] => true
  | (k, v) :: xs, (l, w) :: ys => k == l && JValue.beq v w && JValue.beqObj xs ys
  | _, _ => false

end

mutual

theorem JValue.eq_of_beq : ∀ (a b : JValue), JValue.beq a b = true → a = b
  | .null, .null, _ => rfl
  | .bool a, .bool b, h => by
    simp only [JValue.beq, beq_iff_eq] at h; rw [h]
  | .num a, .num b, h => by
    simp only [JValue.beq, beq_iff_eq] at h; rw [h]
  | .str a, .str b, h => by
    simp only [JValue.beq, beq_iff_eq] at h; rw [h]
  | .arr xs, .arr ys, h => by
    rw [JValue.eq_of_beqList xs ys (by simpa [JValue.beq] using h)]
  | .obj xs, .obj ys, h => by
    rw [JValue.eq_of_beqObj xs ys (by simpa [JValue.beq] using h)]
  | .null, .bool _, h | .null, .num _, h | .null, .str _, h
  | .null, .arr _, h | .null, .obj _, h
  | .bool _, .null, h | .bool _, .num _, h | .bool _, .str _, h
  | .bool _, .arr _, h | .bool _, .obj _, h
  | .num _, .null, h | .num _, .bool _, h | .num _, .str _, h
  | .num _, .arr _, h | .num _, .obj _, h
  | .str _, .null, h | .str _, .bool _, h | .str _, .num _, h
  | .str _, .arr _, h | .str _, .obj _, h
  | .arr _, .null, h | .arr _, .bool _, h | .arr _, .num _, h
  | .arr _, .str _, h | .arr _, .obj _, h
  | .obj _, .null, h | .obj _, .bool _, h | .obj _, .num _, h
  | .obj _, .str _, h | .obj _, .arr _, h => by simp [JValue.beq] at h

theorem JValue.eq_of_beqList : ∀ (xs ys : List JValue),
    JValue.beqList xs ys = true → xs = ys
  | [], [], _ => rfl
  | x :: xs, y :: ys, h => by
    simp only [JValue.beqList, Bool.and_eq_true] at h
    rw [JValue.eq_of_beq x y h.1, JValue.eq_of_beqList xs ys h.2]
  | [], _ :: _, h | _ :: _, [], h => by simp [JValue.beqList] at h

theorem JValue.eq_of_beqObj : ∀ (xs ys : List (String × JValue)),
    JValue.beqObj xs ys = true → xs = ys
  | [], [], _ => rfl
  | (k, v) :: xs, (l, w) :: ys, h => by
    simp only [JValue.beqObj, Bool.and_eq_true, beq_iff_eq] at h
    rw [h.1.1, JValue.eq_of_beq v w h.1.2, JValue.eq_of_beqObj xs ys h.2]
  | [], _ :: _, h | _ :: _, [], h => by simp [JValue.beqObj] at h

end

mutual

theorem JValue.beq_refl : ∀ (a : JValue), JValue.beq a a = true
  | .null => rfl
  | .bool a => by simp [JValue.beq]
  | .num a => by simp [JValue.beq]
  | .str a => by simp [JValue.beq]
  | .arr xs => by simp [JValue.beq, JValue.beqList_refl xs]
  | .obj xs => by simp [JValue.beq, JValue.beqObj_refl xs]

theorem JValue.beqList_refl : ∀ (xs : List JValue), JValue.beqList xs xs = true
  | [] => rfl
  | x :: xs => by simp [JValue.beqList, JValue.beq_refl x, JValue.beqList_refl xs]

theorem JValue.beqObj_refl : ∀ (xs : List (String × JValue)),
    JValue.beqObj xs xs = true
  | [] => rfl
  | (k, v) :: xs => by simp [JValue.beqObj, JValue.beq_refl v, JValue.beqObj_refl xs]

end

instance : DecidableEq JValue := fun a b =>
  if h : JValue.beq a b = true then .isTrue (JValue.eq_of_beq a b h)
  else .isFalse (fun he => h (he ▸ JValue.beq_refl a))

/-- Association-list lookup for a parsed-JSON dictionary (keys are unique,
so first match is the match). -/
def pyLookup : List (String × JValue) → String → Option JValue
  | [], _ => none
  | (k, v) :: rest, key => if k = key then some v else pyLookup rest key

/-- Python `d.get(k)`: `None` when the key is absent, `AttributeError`
when the receiver is not a dict. -/
def pyGet (v : JValue) (k : String) : Except String JValue :=
  match v with
  | .obj kvs => .ok ((pyLookup kvs k).getD .null)
  | _ => .error "AttributeError"

/-- Python `d.get(k, default)`. -/
def pyGetD (v : JValue) (k : String) (dflt : JValue) : Except String JValue :=
  match v with
  | .obj kvs => .ok ((pyLookup kvs k).getD dflt)
  | _ => .error "AttributeError"

/-- Python `d[k]` for a string literal key `k` (the only kind of subscript
the converter performs): `KeyError` when the key is absent from a dict,
`TypeError` when the receiver is not a dict (lists, strings, numbers and
`None` all raise `TypeError` on a string subscript). -/
def pySubscr (v : JValue) (k : String) : Except String JValue :=
  match v with
  | .obj kvs =>
    match pyLookup kvs k with
    | some x => .ok x
    | none => .error "KeyError"
  | _ => .error "TypeError"

/-- Python `k in v` for a string `k`: key containment for dicts, membership
for lists, substring test for strings, `TypeError` otherwise. -/
def pyContains (v : JValue) (k : String) : Except String Bool :=
  match v with
  | .obj kvs => .ok (pyLookup kvs k).isSome
  | .arr xs => .ok (xs.contains (.str k))
  | .str s => .ok (decide (List.IsInfix k.toList s.toList))
  | _ => .error "TypeError"

/-- Python `for x in v`: lists iterate their items, strings their
one-character substrings, dicts their keys; other values raise
`TypeError`. -/
def pyIter (v : JValue) : Except String (List JValue) :=
  match v with
  | .arr xs => .ok xs
  | .str s => .ok (s.toList.map (fun c => .str (String.singleton c)))
  | .obj kvs => .ok (kvs.map (fun kv => .str kv.1))
  | _ => .error "TypeError"

/-- Python `str(v)` as used in the f-strings `f"node/{...}"` and
`f"way/{...}"`.  Faithful for `None`, booleans, strings and integral
numbers (the only values the claims evaluate it on); the `repr` of
non-integral floats, lists and dicts is not modelled in detail. -/
def pyStr : JValue → String
  | .null => "None"
  | .bool true => "True"
  | .bool false => "False"
  | .str s => s
  | .num q => if q.den = 1 then toString q.num else toString q
  | .arr _ => "<list repr>"
  | .obj _ => "<dict repr>"

/-- Python `node_id in nodes` / `nodes[node_id]` on the node index: a
Python dict from node id (any JSON value) to the dict
`{"lat": ..., "lon": ...}`.  The index is built by prepending and looked
up by first match, which models the last-write-wins overwrite semantics
of a Python dict (the index is never iterated, only looked up). -/
def assocFind : List (JValue × JValue) → JValue → Option JValue
  | [], _ => none
  | (k, v) :: rest, key => if k = key then some v else assocFind rest key

/-- Embedding of `convert_node_to_feature` (src/core/overpass_client.py,
lines 110-134): a node becomes a Point feature when both `lat` and `lon`
are present and non-null, otherwise `None` is returned. -/
def convert_node_to_feature (node : JValue) : Except String (Option JValue) := do
  let lat ← pyGet node "lat"
  let lon ← pyGet node "lon"
  if lat = .null ∨ lon = .null then
    return none
  let idv ← pyGet node "id"
  let tags ← pyGetD node "tags" (.obj [])
  return some (.obj [
    ("type", .str "Feature"),
    ("id", .str ("node/" ++ pyStr idv)),
    ("geometry", .obj [
      ("type", .str "Point"),
      ("coordinates", .arr [lon, lat])]),
    ("properties", tags)])

/-- One entry of the list comprehension
`[[n["lon"], n["lat"]] for n in way["geometry"]]` (line 152): a raw
subscript on each embedded geometry entry, swapping to (lon, lat)
order. -/
def geom_entry_coord (n : JValue) : Except String JValue := do
  let lon ← pySubscr n "lon"
  let lat ← pySubscr n "lat"
  return JValue.arr [lon, lat]

/-- The node-reference lookup loop of `convert_way_to_feature`
(lines 154-159): `for node_id in way["nodes"]: if node_id in nodes:
coordinates.append([lon, lat])` — referenced ids absent from the index
are silently skipped. -/
def lookup_node_refs (nodes : List (JValue × JValue))
    (coordinates : List JValue) : List JValue → Except String (List JValue)
  | [] => .ok coordinates
  | node_id :: rest =>
    match assocFind nodes node_id with
    | some node_data => do
      let lon ← pySubscr node_data "lon"
      let lat ← pySubscr node_data "lat"
      lookup_node_refs nodes (coordinates ++ [JValue.arr [lon, lat]]) rest
    | none => lookup_node_refs nodes coordinates rest

/-- Embedding of the coordinate-resolution prologue of
`convert_way_to_feature` (lines 146-159): embedded `geometry` takes
priority; otherwise referenced node ids are looked up in the index, with
absent ids silently skipped; a way with neither key resolves to `[]`. -/
def resolve_coordinates (way : JValue) (nodes : List (JValue × JValue)) :
    Except String (List JValue) := do
  let hasGeom ← pyContains way "geometry"
  if hasGeom then
    let geom ← pySubscr way "geometry"
    let entries ← pyIter geom
    entries.mapM geom_entry_coord
  else
    let hasNodes ← pyContains way "nodes"
    if hasNodes then
      let nodeList ← pySubscr way "nodes"
      let ids ← pyIter nodeList
      lookup_node_refs nodes [] ids
    else
      return []

/-- Embedding of the closed-way test of `convert_way_to_feature`
(lines 164-168): `len(coordinates) >= 4 and coordinates[0] ==
coordinates[-1]` (the subscripts are guarded by the short-circuiting
`and`, so totalising them with `Option` defaults does not change the
value). -/
def is_closed_coords (coordinates : List JValue) : Bool :=
  decide (4 ≤ coordinates.length) && decide (coordinates.head? = coordinates.getLast?)

/-- Embedding of the area test of `convert_way_to_feature` (lines
170-181): `is_closed and (tags.get("area") == "yes" or "building" in tags
or ...)`, with Python's left-to-right short-circuit evaluation. -/
def is_area_of (is_closed : Bool) (tags : JValue) : Except String Bool := do
  if is_closed then
    let area ← pyGet tags "area"
    if area = .str "yes" then return true
    if (← pyContains tags "building") then return true
    if (← pyContains tags "landuse") then return true
    if (← pyContains tags "natural") then return true
    if (← pyContains tags "leisure") then return true
    if (← pyContains tags "amenity") then return true
    return false
  else
    return false

/-- Embedding of `convert_way_to_feature` (lines 137-199). -/
def convert_way_to_feature (way : JValue) (nodes : List (JValue × JValue)) :
    Except String (Option JValue) := do
  let coordinates ← resolve_coordinates way nodes
  if coordinates.length < 2 then
    return none
  let is_closed := is_closed_coords coordinates
  let tags ← pyGetD way "tags" (.obj [])
  let is_area ← is_area_of is_closed tags
  let geometry_type := if is_area then "Polygon" else "LineString"
  let geometry_coords :=
    if is_area then JValue.arr [JValue.arr coordinates] else JValue.arr coordinates
  let idv ← pyGet way "id"
  return some (.obj [
    ("type", .str "Feature"),
    ("id", .str ("way/" ++ pyStr idv)),
    ("geometry", .obj [
      ("type", .str geometry_type),
      ("coordinates", geometry_coords)]),
    ("properties", tags)])

/-- Embedding of the node-index pass of `convert_overpass_to_geojson`
(lines 78-84): every element whose `type` is `"node"` gets an entry
`element["id"] -> {"lat": element.get("lat"), "lon": element.get("lon")}`
(the subscript `element["id"]` raises `KeyError` when absent, and
`element.get` raises `AttributeError` on a non-dict element). -/
def build_node_index (acc : List (JValue × JValue)) :
    List JValue → Except String (List (JValue × JValue))
  | [] => .ok acc
  | element :: rest => do
    let t ← pyGet element "type"
    if t = .str "node" then
      let idv ← pySubscr element "id"
      let lat ← pyGet element "lat"
      let lon ← pyGet element "lon"
      build_node_index ((idv, .obj [("lat", lat), ("lon", lon)]) :: acc) rest
    else
      build_node_index acc rest

/-- The dispatch body of the conversion loop of
`convert_overpass_to_geojson` (lines 87-103): nodes go to the point
converter, ways to the way converter, anything else is skipped. -/
def elementFeature (nodes : List (JValue × JValue)) (element : JValue) :
    Except String (Option JValue) := do
  let element_type ← pyGet element "type"
  if element_type = .str "node" then
    convert_node_to_feature element
  else if element_type = .str "way" then
    convert_way_to_feature element nodes
  else
    return none

/-- The conversion loop of `convert_overpass_to_geojson` (lines 86-103):
successfully converted features are appended in element order; an
exception raised while converting any element aborts the whole loop. -/
def process_elements (nodes : List (JValue × JValue)) :
    List JValue → Except String (List JValue)
  | [] => .ok []
  | element :: rest => do
    let fOpt ← elementFeature nodes element
    let restFeatures ← process_elements nodes rest
    match fOpt with
    | some f => return f :: restFeatures
    | none => return restFeatures

/-- Embedding of `convert_overpass_to_geojson` (lines 57-107). -/
def convert_overpass_to_geojson (osm_data : JValue) : Except String JValue := do
  let elementsValue ← pyGetD osm_data "elements" (.arr [])
  let elements ← pyIter elementsValue
  let nodes ← build_node_index [] elements
  let features ← process_elements nodes elements
  return .obj [
    ("type", .str "FeatureCollection"),
    ("features", .arr features)]

/-- Embedding of the post-parse portion of `fetch_osm_geojson` (lines
41-46): the network fetch and JSON parse are external; given the parsed
response, the function raises `RuntimeError` when the top-level
`"elements"` field is absent, and otherwise converts. -/
def fetch_convert (osm_data : JValue) : Except String JValue := do
  let hasElements ← pyContains osm_data "elements"
  if ¬ hasElements then
    throw "RuntimeError: Invalid Overpass API response: missing 'elements'"
  convert_overpass_to_geojson osm_data

/-- Observation helper: field of a JSON object, `none` otherwise. -/
def featureField (f : JValue) (k : String) : Option JValue :=
  match f with
  | .obj kvs => pyLookup kvs k
  | _ => none

/-- Observation helper: the `geometry.type` of a feature. -/
def featureGeomType (f : JValue) : Option JValue :=
  (featureField f "geometry").bind (fun g => featureField g "type")

/-- Observation helper: the `geometry.coordinates` of a feature. -/
def featureGeomCoords (f : JValue) : Option JValue :=
  (featureField f "geometry").bind (fun g => featureField g "coordinates")

/-! ### Helper lemmas for reasoning about the `Except` do-notation -/

@[simp] theorem exbind_ok {α β : Type} (a : α) (f : α → Except String β) :
    (Except.ok a >>= f) = f a := rfl

@[simp] theorem exbind_error {α β : Type} (e : String) (f : α → Except String β) :
    ((Except.error e : Except String α) >>= f) = .error e := rfl

@[simp] theorem expure {α : Type} (a : α) : (pure a : Except String α) = .ok a := rfl

@[simp] theorem exthrow {α : Type} (e : String) :
    (throw e : Except String α) = .error e := rfl

/-! ### Claim C1 -/

/-- C1: a raw payload (a parsed JSON object) lacking the top-level
`"elements"` field makes the conversion call fail with the precondition
`RuntimeError`; in particular it never returns an empty feature
collection as a success. -/
theorem C1_missing_elements_precondition_error (kvs : List (String × JValue))
    (h : pyLookup kvs "elements" = none) :
    fetch_convert (.obj kvs) =
        .error "RuntimeError: Invalid Overpass API response: missing 'elements'" ∧
      ∀ v : JValue, fetch_convert (.obj kvs) ≠ .ok v := by
  have hrun : fetch_convert (.obj kvs) =
      .error "RuntimeError: Invalid Overpass API response: missing 'elements'" := by
    simp [fetch_convert, pyContains, h]
  exact ⟨hrun, fun v hv => by rw [hrun] at hv; exact Except.noConfusion hv⟩

/-- Witness for C1: the concrete payload `{"version": 1}` fails the
precondition check. -/
theorem C1_missing_elements_precondition_error_witness :
    fetch_convert (.obj [("version", .num 1)]) =
        .error "RuntimeError: Invalid Overpass API response: missing 'elements'" ∧
      ∀ v : JValue, fetch_convert (.obj [("version", .num 1)]) ≠ .ok v :=
  C1_missing_elements_precondition_error [("version", .num 1)] rfl

/-! ### Claim C6 -/

/-- C6: a path element whose resolved coordinate sequence has fewer than
2 coordinate pairs produces no feature: the way converter returns `None`
rather than raising. -/
theorem C6_short_path_no_feature (way : JValue) (nodes : List (JValue × JValue))
    (coords : List JValue)
    (hres : resolve_coordinates way nodes = .ok coords)
    (hlen : coords.length < 2) :
    convert_way_to_feature way nodes = .ok none := by
  simp [convert_way_to_feature, hres, if_pos hlen]

/-- Witness for C6: a way resolving to a single embedded coordinate pair
yields no feature. -/
theorem C6_short_path_no_feature_witness :
    convert_way_to_feature
      (.obj [("type", .str "way"), ("id", .num 4),
        ("geometry", .arr [.obj [("lat", .num 1), ("lon", .num 2)]])]) [] =
      .ok none :=
  C6_short_path_no_feature _ []
    [.arr [.num 2, .num 1]] rfl (by decide)

/-! ### Claim C3 -/

/-- C3: for a node element (a JSON object), when both `lat` and `lon`
are present and non-null the point converter produces a Point feature
with id `node/<id>`, coordinates `[lon, lat]` (axis order reversed from
the input latitude/longitude), and the element's tag mapping verbatim as
properties (`{}` when absent); when `lat` or `lon` is missing or null, no
feature is produced. -/
theorem C3_node_point_conversion (kvs : List (String × JValue)) :
    ((pyLookup kvs "lat").getD .null ≠ .null →
      (pyLookup kvs "lon").getD .null ≠ .null →
      convert_node_to_feature (.obj kvs) = .ok (some (.obj [
        ("type", .str "Feature"),
        ("id", .str ("node/" ++ pyStr ((pyLookup kvs "id").getD .null))),
        ("geometry", .obj [
          ("type", .str "Point"),
          ("coordinates", .arr [(pyLookup kvs "lon").getD .null,
            (pyLookup kvs "lat").getD .null])]),
        ("properties", (pyLookup kvs "tags").getD (.obj []))])))
    ∧ (((pyLookup kvs "lat").getD .null = .null ∨
          (pyLookup kvs "lon").getD .null = .null) →
        convert_node_to_feature (.obj kvs) = .ok none) := by
  constructor
  · intro hlat hlon
    simp [convert_node_to_feature, pyGet, pyGetD, hlat, hlon]
  · intro h
    simp [convert_node_to_feature, pyGet, pyGetD, if_pos h]

/-- Witness for C3: a concrete node with coordinates converts to the
expected Point feature, and a concrete node with a null latitude is
skipped. -/
theorem C3_node_point_conversion_witness :
    convert_node_to_feature (.obj [("type", .str "node"), ("id", .num 7),
        ("lat", .num 35), ("lon", .num 139),
        ("tags", .obj [("name", .str "x")])]) =
      .ok (some (.obj [
        ("type", .str "Feature"),
        ("id", .str "node/7"),
        ("geometry", .obj [
          ("type", .str "Point"),
          ("coordinates", .arr [.num 139, .num 35])]),
        ("properties", .obj [("name", .str "x")])]))
    ∧ convert_node_to_feature (.obj [("type", .str "node"), ("id", .num 8),
        ("lat", .null), ("lon", .num 139)]) = .ok none := by
  constructor
  · have h := (C3_node_point_conversion [("type", .str "node"), ("id", .num 7),
      ("lat", .num 35), ("lon", .num 139),
      ("tags", .obj [("name", .str "x")])]).1 (by decide) (by decide)
    simpa using h
  · exact (C3_node_point_conversion [("type", .str "node"), ("id", .num 8),
      ("lat", .null), ("lon", .num 139)]).2 (Or.inl rfl)

/-! ### Area classification helpers -/

/-- The area-classification tag condition as the spec words it: the tag
`area` has exact value `"yes"`, or the tag mapping contains one of the
keys `building`, `landuse`, `natural`, `leisure`, `amenity` (presence
only). -/
def areaTagSpec (tkvs : List (String × JValue)) : Bool :=
  decide (pyLookup tkvs "area" = some (.str "yes")) ||
  (pyLookup tkvs "building").isSome || (pyLookup tkvs "landuse").isSome ||
  (pyLookup tkvs "natural").isSome || (pyLookup tkvs "leisure").isSome ||
  (pyLookup tkvs "amenity").isSome

theorem is_area_of_false (tags : JValue) : is_area_of false tags = .ok false := rfl

theorem if_bool_chain {b y : Bool} {X : Except String Bool} (hX : X = .ok y) :
    (if b = true then (Except.ok true : Except String Bool) else X) = .ok (b || y) := by
  cases b <;> simp [hX]

theorem is_area_of_obj (c : Bool) (tkvs : List (String × JValue)) :
    is_area_of c (.obj tkvs) = .ok (c && areaTagSpec tkvs) := by
  cases c with
  | false => simp [is_area_of]
  | true =>
    simp only [is_area_of, pyGet, pyContains, exbind_ok, expure, if_true, Bool.true_and]
    by_cases harea : (pyLookup tkvs "area").getD .null = .str "yes"
    · have ha : pyLookup tkvs "area" = some (.str "yes") := by
        cases hl : pyLookup tkvs "area" with
        | none => rw [hl] at harea; simp at harea
        | some v => rw [hl] at harea; simp at harea; rw [harea]
      rw [if_pos harea]
      simp [areaTagSpec, ha]
    · have ha : ¬ pyLookup tkvs "area" = some (.str "yes") := by
        intro hl; rw [hl] at harea; simp at harea
      rw [if_neg harea]
      rw [if_bool_chain (if_bool_chain (if_bool_chain (if_bool_chain
        (if_bool_chain rfl))))]
      simp [areaTagSpec, ha, Bool.or_assoc]

/-- Characterisation of `convert_way_to_feature` on a way whose
coordinates resolve, have at least 2 entries, and whose tag mapping is a
JSON object: the output feature is a Polygon with the ring wrapped in one
extra nesting level exactly when the way is closed and satisfies the area
tag condition, and otherwise a LineString with the unwrapped sequence. -/
theorem convert_way_to_feature_eq (way : JValue) (nodes : List (JValue × JValue))
    (coords : List JValue) (tkvs : List (String × JValue)) (idv : JValue)
    (hres : resolve_coordinates way nodes = .ok coords)
    (hlen : 2 ≤ coords.length)
    (htags : pyGetD way "tags" (.obj []) = .ok (.obj tkvs))
    (hid : pyGet way "id" = .ok idv) :
    convert_way_to_feature way nodes = .ok (some (.obj [
      ("type", .str "Feature"),
      ("id", .str ("way/" ++ pyStr idv)),
      ("geometry", .obj [
        ("type", .str (if is_closed_coords coords && areaTagSpec tkvs
          then "Polygon" else "LineString")),
        ("coordinates", if is_closed_coords coords && areaTagSpec tkvs
          then JValue.arr [.arr coords] else .arr coords)]),
      ("properties", .obj tkvs)])) := by
  have hnotlt : ¬ coords.length < 2 := not_lt.mpr hlen
  simp only [convert_way_to_feature, hres, exbind_ok, expure, if_neg hnotlt,
    htags, is_area_of_obj, hid]

/-! ### Claim C4 -/

/-- C4: a path's resolved coordinate sequence is treated as closed if and
only if it has at least 4 coordinate pairs and its first pair is exactly
value-equal to its last pair; in particular a path with exactly 3
resolved coordinates whose first equals its last is never classified as
an Area Feature (any feature it yields is a LineString), regardless of
its tags. -/
theorem C4_closure_rule (way : JValue) (nodes : List (JValue × JValue))
    (coords : List JValue)
    (hres : resolve_coordinates way nodes = .ok coords) :
    (is_closed_coords coords = true ↔
      (4 ≤ coords.length ∧ coords.head? = coords.getLast?))
    ∧ (coords.length = 3 → coords.head? = coords.getLast? →
        ∀ f, convert_way_to_feature way nodes = .ok (some f) →
          featureGeomType f = some (.str "LineString")) := by
  constructor
  · simp [is_closed_coords]
  · intro h3 _ f hconv
    have hic : is_closed_coords coords = false := by
      simp [is_closed_coords, h3]
    have hnotlt : ¬ coords.length < 2 := by omega
    simp only [convert_way_to_feature, hres, exbind_ok, if_neg hnotlt, hic] at hconv
    cases htags : pyGetD way "tags" (.obj []) with
    | error e => rw [htags] at hconv; simp at hconv
    | ok tags =>
      rw [htags] at hconv
      simp only [exbind_ok, is_area_of_false] at hconv
      cases hid : pyGet way "id" with
      | error e => rw [hid] at hconv; simp at hconv
      | ok idv =>
        rw [hid] at hconv
        simp only [exbind_ok, expure, if_neg (Bool.false_ne_true),
          Except.ok.injEq, Option.some.injEq] at hconv
        rw [← hconv]
        simp [featureGeomType, featureField, pyLookup]

/-- Witness for C4: a concrete 3-coordinate way whose first coordinate
equals its last, tagged `building=yes`, still converts to a LineString. -/
theorem C4_closure_rule_witness :
    featureGeomType (.obj [
      ("type", .str "Feature"),
      ("id", .str "way/2"),
      ("geometry", .obj [
        ("type", .str "LineString"),
        ("coordinates", .arr [.arr [.num 0, .num 0], .arr [.num 1, .num 0],
          .arr [.num 0, .num 0]])]),
      ("properties", .obj [("building", .str "yes")])]) =
      some (.str "LineString") :=
  (C4_closure_rule
    (.obj [("type", .str "way"), ("id", .num 2),
      ("geometry", .arr [
        .obj [("lat", .num 0), ("lon", .num 0)],
        .obj [("lat", .num 0), ("lon", .num 1)],
        .obj [("lat", .num 0), ("lon", .num 0)]]),
      ("tags", .obj [("building", .str "yes")])]) []
    [.arr [.num 0, .num 0], .arr [.num 1, .num 0], .arr [.num 0, .num 0]]
    rfl).2 rfl rfl _ rfl

/-! ### Claim C5 -/

/-- C5: a way whose coordinates resolve to at least 2 pairs and whose tag
mapping is a JSON object becomes an Area Feature (GeoJSON Polygon) if and
only if it is closed and either has the tag `area` with exact value
`"yes"` or contains one of the keys `building`, `landuse`, `natural`,
`leisure`, `amenity`; every other such way becomes a Line Feature
(LineString).  An Area Feature wraps the coordinate sequence in exactly
one extra nesting level (a single ring); a Line Feature uses the sequence
unwrapped. -/
theorem C5_area_classification (way : JValue) (nodes : List (JValue × JValue))
    (coords : List JValue) (tkvs : List (String × JValue)) (idv : JValue)
    (hres : resolve_coordinates way nodes = .ok coords)
    (hlen : 2 ≤ coords.length)
    (htags : pyGetD way "tags" (.obj []) = .ok (.obj tkvs))
    (hid : pyGet way "id" = .ok idv) :
    convert_way_to_feature way nodes = .ok (some (.obj [
      ("type", .str "Feature"),
      ("id", .str ("way/" ++ pyStr idv)),
      ("geometry", .obj [
        ("type", .str (if is_closed_coords coords && areaTagSpec tkvs
          then "Polygon" else "LineString")),
        ("coordinates", if is_closed_coords coords && areaTagSpec tkvs
          then JValue.arr [.arr coords] else .arr coords)]),
      ("properties", .obj tkvs)])) :=
  convert_way_to_feature_eq way nodes coords tkvs idv hres hlen htags hid

/-- Witness for C5: the spec's example — a closed 4-coordinate ring
`[[0,0],[1,0],[1,1],[0,0]]` tagged `building=yes` yields a Polygon whose
coordinates wrap the ring in one extra level. -/
theorem C5_area_classification_witness :
    convert_way_to_feature
      (.obj [("type", .str "way"), ("id", .num 2),
        ("geometry", .arr [
          .obj [("lat", .num 0), ("lon", .num 0)],
          .obj [("lat", .num 0), ("lon", .num 1)],
          .obj [("lat", .num 1), ("lon", .num 1)],
          .obj [("lat", .num 0), ("lon", .num 0)]]),
        ("tags", .obj [("building", .str "yes")])]) [] =
      .ok (some (.obj [
        ("type", .str "Feature"),
        ("id", .str "way/2"),
        ("geometry", .obj [
          ("type", .str "Polygon"),
          ("coordinates", .arr [.arr [
            .arr [.num 0, .num 0], .arr [.num 1, .num 0],
            .arr [.num 1, .num 1], .arr [.num 0, .num 0]]])]),
        ("properties", .obj [("building", .str "yes")])])) := by
  have h := C5_area_classification
    (.obj [("type", .str "way"), ("id", .num 2),
      ("geometry", .arr [
        .obj [("lat", .num 0), ("lon", .num 0)],
        .obj [("lat", .num 0), ("lon", .num 1)],
        .obj [("lat", .num 1), ("lon", .num 1)],
        .obj [("lat", .num 0), ("lon", .num 0)]]),
      ("tags", .obj [("building", .str "yes")])]) []
    [.arr [.num 0, .num 0], .arr [.num 1, .num 0],
      .arr [.num 1, .num 1], .arr [.num 0, .num 0]]
    [("building", .str "yes")] (.num 2) rfl (by decide) rfl rfl
  rw [show (is_closed_coords [.arr [.num 0, .num 0], .arr [.num 1, .num 0],
      .arr [.num 1, .num 1], .arr [.num 0, .num 0]] &&
      areaTagSpec [("building", .str "yes")]) = true from rfl] at h
  simpa using h

/-! ### Claim C2 -/

/-- Counterexample to C2: the conversion does raise on an individual
malformed element.  A way whose embedded geometry list contains an entry
without `lon`/`lat` keys makes the whole conversion fail with a
`KeyError` (the comprehension `[[n["lon"], n["lat"]] for n in
way["geometry"]]` has no per-element guard), instead of dropping that
element silently. -/
theorem C2_counterexample_malformed_geometry_raises :
    convert_overpass_to_geojson
      (.obj [("elements", .arr [.obj [("type", .str "way"), ("id", .num 1),
        ("geometry", .arr [.obj []])]])]) = .error "KeyError" := rfl

theorem build_node_index_non_node (elements : List JValue)
    (h : ∀ e ∈ elements, ∃ ekvs : List (String × JValue), e = .obj ekvs ∧
      (pyLookup ekvs "type").getD .null ≠ .str "node") :
    ∀ acc, build_node_index acc elements = .ok acc := by
  induction elements with
  | nil => intro acc; rfl
  | cons e rest ih =>
    intro acc
    obtain ⟨ekvs, he, hne⟩ := h e (List.mem_cons_self e rest)
    simp only [build_node_index, he, pyGet, exbind_ok, if_neg hne]
    exact ih (fun x hx => h x (List.mem_cons_of_mem e hx)) acc

theorem process_elements_skip_other (nodes : List (JValue × JValue))
    (elements : List JValue)
    (h : ∀ e ∈ elements, ∃ ekvs : List (String × JValue), e = .obj ekvs ∧
      (pyLookup ekvs "type").getD .null ≠ .str "node" ∧
      (pyLookup ekvs "type").getD .null ≠ .str "way") :
    process_elements nodes elements = .ok [] := by
  induction elements with
  | nil => rfl
  | cons e rest ih =>
    obtain ⟨ekvs, he, hn, hw⟩ := h e (List.mem_cons_self e rest)
    simp only [process_elements, elementFeature, he, pyGet, exbind_ok, expure,
      if_neg hn, if_neg hw]
    rw [ih (fun x hx => h x (List.mem_cons_of_mem e hx))]
    rfl

/-- C2 (amended): for a payload with an element list, unsupported element
kinds are dropped silently — every element that is a JSON object whose
`type` is neither `"node"` nor `"way"` (relations in particular)
contributes nothing and causes no error, so a payload of only such
elements yields an empty feature collection.  (The original claim's
further assertion that malformed embedded geometry entries are also
dropped silently is refuted by
`C2_counterexample_malformed_geometry_raises`.) -/
theorem C2_unsupported_kinds_skipped (kvs : List (String × JValue))
    (elements : List JValue)
    (helems : pyLookup kvs "elements" = some (.arr elements))
    (h : ∀ e ∈ elements, ∃ ekvs : List (String × JValue), e = .obj ekvs ∧
      (pyLookup ekvs "type").getD .null ≠ .str "node" ∧
      (pyLookup ekvs "type").getD .null ≠ .str "way") :
    convert_overpass_to_geojson (.obj kvs) =
      .ok (.obj [("type", .str "FeatureCollection"), ("features", .arr [])]) := by
  have hb := build_node_index_non_node elements
    (fun e he => (h e he).imp (fun ekvs hp => ⟨hp.1, hp.2.1⟩)) []
  have hp := process_elements_skip_other [] elements h
  simp [convert_overpass_to_geojson, pyGetD, helems, pyIter, hb, hp]

/-- Witness for the amended C2: a payload containing only one relation
element yields an empty feature collection, not an error. -/
theorem C2_unsupported_kinds_skipped_witness :
    convert_overpass_to_geojson
      (.obj [("elements", .arr [.obj [("type", .str "relation"), ("id", .num 5)]])]) =
      .ok (.obj [("type", .str "FeatureCollection"), ("features", .arr [])]) :=
  C2_unsupported_kinds_skipped
    [("elements", .arr [.obj [("type", .str "relation"), ("id", .num 5)]])]
    [.obj [("type", .str "relation"), ("id", .num 5)]] rfl
    (by
      intro e he
      rw [List.mem_singleton] at he
      subst he
      exact ⟨[("type", .str "relation"), ("id", .num 5)], rfl,
        by decide, by decide⟩)

/-! ### Claim C7 -/

theorem assocFind_mem : ∀ (l : List (JValue × JValue)) (k v : JValue),
    assocFind l k = some v → (k, v) ∈ l
  | [], k, v, h => by simp [assocFind] at h
  | (k0, v0) :: rest, k, v, h => by
    by_cases hk : k0 = k
    · subst hk
      have h' : v0 = v := by simpa [assocFind] using h
      rw [← h']
      exact List.mem_cons_self _ _
    · simp only [assocFind, if_neg hk] at h
      exact List.mem_cons_of_mem _ (assocFind_mem rest k v h)

/-- Every value stored in the node index has the shape
`{"lat": ..., "lon": ...}`, by construction of the index pass. -/
theorem build_node_index_shape : ∀ (elements : List JValue)
    (acc nodes : List (JValue × JValue)),
    (∀ kv ∈ acc, ∃ lat lon, kv.2 = JValue.obj [("lat", lat), ("lon", lon)]) →
    build_node_index acc elements = .ok nodes →
    ∀ kv ∈ nodes, ∃ lat lon, kv.2 = JValue.obj [("lat", lat), ("lon", lon)] := by
  intro elements
  induction elements with
  | nil =>
    intro acc nodes hacc h
    simp only [build_node_index, Except.ok.injEq] at h
    rw [← h]
    exact hacc
  | cons e rest ih =>
    intro acc nodes hacc h
    simp only [build_node_index] at h
    cases ht : pyGet e "type" with
    | error msg => rw [ht] at h; simp at h
    | ok t =>
      rw [ht] at h
      simp only [exbind_ok] at h
      by_cases hn : t = .str "node"
      · rw [if_pos hn] at h
        cases hid : pySubscr e "id" with
        | error msg => rw [hid] at h; simp at h
        | ok idv =>
          rw [hid] at h
          simp only [exbind_ok] at h
          cases hlat : pyGet e "lat" with
          | error msg => rw [hlat] at h; simp at h
          | ok latv =>
            rw [hlat] at h
            simp only [exbind_ok] at h
            cases hlon : pyGet e "lon" with
            | error msg => rw [hlon] at h; simp at h
            | ok lonv =>
              rw [hlon] at h
              simp only [exbind_ok] at h
              refine ih ((idv, .obj [("lat", latv), ("lon", lonv)]) :: acc) nodes ?_ h
              intro kv hkv
              rcases List.mem_cons.mp hkv with hkv | hkv
              · rw [hkv]; exact ⟨latv, lonv, rfl⟩
              · exact hacc kv hkv
      · rw [if_neg hn] at h
        exact ih acc nodes hacc h

/-- The node-reference loop resolves exactly the referenced ids found in
the index, in order, silently omitting absent ids. -/
theorem lookup_node_refs_eq (nodes : List (JValue × JValue))
    (hinv : ∀ kv ∈ nodes, ∃ lat lon,
      kv.2 = JValue.obj [("lat", lat), ("lon", lon)]) :
    ∀ (ids coordinates : List JValue),
      lookup_node_refs nodes coordinates ids =
        .ok (coordinates ++ ids.filterMap (fun i => (assocFind nodes i).map
          (fun v => JValue.arr [(featureField v "lon").getD .null,
            (featureField v "lat").getD .null]))) := by
  intro ids
  induction ids with
  | nil => intro c; simp [lookup_node_refs]
  | cons i rest ih =>
    intro c
    cases hf : assocFind nodes i with
    | none => simp [lookup_node_refs, hf, ih]
    | some v =>
      obtain ⟨latv, lonv, hv⟩ := hinv (i, v) (assocFind_mem nodes i v hf)
      simp only at hv
      simp [lookup_node_refs, hf, hv, pySubscr, pyLookup, featureField, ih]

/-- C7: for a way without embedded geometry, resolved through a node
index built by the index pass, every referenced id absent from the index
is silently omitted from the coordinate sequence (no placeholder, no
abort): the resolution succeeds and returns exactly the in-order
(lon, lat) pairs of the ids found in the index. -/
theorem C7_absent_refs_silently_omitted (elements : List JValue)
    (nodes : List (JValue × JValue)) (wkvs : List (String × JValue))
    (ids : List JValue)
    (hbuild : build_node_index [] elements = .ok nodes)
    (hgeom : pyLookup wkvs "geometry" = none)
    (hnodes : pyLookup wkvs "nodes" = some (.arr ids)) :
    resolve_coordinates (.obj wkvs) nodes =
      .ok (ids.filterMap (fun i => (assocFind nodes i).map
        (fun v => JValue.arr [(featureField v "lon").getD .null,
          (featureField v "lat").getD .null]))) := by
  have hinv := build_node_index_shape elements [] nodes (by simp) hbuild
  simp [resolve_coordinates, pyContains, hgeom, hnodes, pySubscr, pyIter,
    lookup_node_refs_eq nodes hinv ids []]

/-- Witness for C7: node list `[1, 2, 3]` with only nodes 1 and 3 indexed
resolves to the 2-point sequence of nodes 1 and 3 (and the way then
converts to a 2-point LineString, not an error). -/
theorem C7_absent_refs_silently_omitted_witness :
    resolve_coordinates
        (.obj [("type", .str "way"), ("id", .num 9),
          ("nodes", .arr [.num 1, .num 2, .num 3])])
        [(.num 3, .obj [("lat", .num 11), ("lon", .num 21)]),
          (.num 1, .obj [("lat", .num 10), ("lon", .num 20)])] =
      .ok [.arr [.num 20, .num 10], .arr [.num 21, .num 11]] :=
  (C7_absent_refs_silently_omitted
    [.obj [("type", .str "node"), ("id", .num 1), ("lat", .num 10), ("lon", .num 20)],
      .obj [("type", .str "node"), ("id", .num 3), ("lat", .num 11), ("lon", .num 21)]]
    [(.num 3, .obj [("lat", .num 11), ("lon", .num 21)]),
      (.num 1, .obj [("lat", .num 10), ("lon", .num 20)])]
    [("type", .str "way"), ("id", .num 9), ("nodes", .arr [.num 1, .num 2, .num 3])]
    [.num 1, .num 2, .num 3] rfl rfl rfl).trans rfl

/-! ### Claim C8 -/

theorem mapM_geom_entries : ∀ (entries : List JValue),
    (∀ n ∈ entries, (featureField n "lon").isSome ∧
      (featureField n "lat").isSome) →
    entries.mapM geom_entry_coord =
      .ok (entries.map (fun n => JValue.arr [(featureField n "lon").getD .null,
        (featureField n "lat").getD .null])) := by
  intro entries
  induction entries with
  | nil => intro _; rfl
  | cons n rest ih =>
    intro h
    obtain ⟨hlon, hlat⟩ := h n (List.mem_cons_self n rest)
    obtain ⟨nkvs, hn⟩ : ∃ nkvs, n = JValue.obj nkvs := by
      cases n <;> simp [featureField] at hlon ⊢
    subst hn
    simp only [featureField] at hlon hlat
    obtain ⟨lonv, hlonv⟩ := Option.isSome_iff_exists.mp hlon
    obtain ⟨latv, hlatv⟩ := Option.isSome_iff_exists.mp hlat
    rw [List.mapM_cons, ih (fun x hx => h x (List.mem_cons_of_mem _ hx))]
    simp [geom_entry_coord, pySubscr, featureField, hlonv, hlatv]

/-- C8: for a way that carries embedded geometry entries (each with `lon`
and `lat` present), the resolved coordinate sequence is exactly those
entries in order, each swapped from (lat, lon) to (lon, lat) — and the
result does not depend on the node index or the way's referenced node
ids, which are ignored. -/
theorem C8_embedded_geometry_priority (wkvs : List (String × JValue))
    (entries : List JValue) (nodes : List (JValue × JValue))
    (hgeom : pyLookup wkvs "geometry" = some (.arr entries))
    (hwf : ∀ n ∈ entries, (featureField n "lon").isSome ∧
      (featureField n "lat").isSome) :
    resolve_coordinates (.obj wkvs) nodes =
      .ok (entries.map (fun n => JValue.arr [(featureField n "lon").getD .null,
        (featureField n "lat").getD .null])) := by
  have hm := mapM_geom_entries entries hwf
  simp only [resolve_coordinates, pyContains, hgeom, Option.isSome_some,
    exbind_ok, eq_self_iff_true, if_true, pySubscr, pyIter]
  exact hm

/-- Witness for C8: embedded geometry wins over the `nodes` list even
when the index could resolve it differently, and each pair is swapped to
(lon, lat). -/
theorem C8_embedded_geometry_priority_witness :
    resolve_coordinates
        (.obj [("type", .str "way"), ("id", .num 9),
          ("geometry", .arr [.obj [("lat", .num 1), ("lon", .num 2)],
            .obj [("lat", .num 3), ("lon", .num 4)]]),
          ("nodes", .arr [.num 1])])
        [(.num 1, .obj [("lat", .num 50), ("lon", .num 60)])] =
      .ok [.arr [.num 2, .num 1], .arr [.num 4, .num 3]] :=
  (C8_embedded_geometry_priority
    [("type", .str "way"), ("id", .num 9),
      ("geometry", .arr [.obj [("lat", .num 1), ("lon", .num 2)],
        .obj [("lat", .num 3), ("lon", .num 4)]]),
      ("nodes", .arr [.num 1])]
    [.obj [("lat", .num 1), ("lon", .num 2)], .obj [("lat", .num 3), ("lon", .num 4)]]
    [(.num 1, .obj [("lat", .num 50), ("lon", .num 60)])]
    rfl (by decide)).trans rfl

/-! ### Claim C9 -/

theorem process_elements_filterMap (nodes : List (JValue × JValue)) :
    ∀ (elements feats : List JValue),
      process_elements nodes elements = .ok feats →
      feats = elements.filterMap (fun e =>
        match elementFeature nodes e with
        | .ok fOpt => fOpt
        | .error _ => none) := by
  intro elements
  induction elements with
  | nil =>
    intro feats h
    simp only [process_elements, Except.ok.injEq] at h
    rw [← h]; rfl
  | cons e rest ih =>
    intro feats h
    simp only [process_elements] at h
    cases hf : elementFeature nodes e with
    | error msg => rw [hf] at h; simp at h
    | ok fOpt =>
      rw [hf] at h
      simp only [exbind_ok] at h
      cases hr : process_elements nodes rest with
      | error msg => rw [hr] at h; simp at h
      | ok restF =>
        rw [hr] at h
        simp only [exbind_ok] at h
        have hrest := ih restF hr
        cases fOpt with
        | none =>
          simp only [expure, Except.ok.injEq] at h
          rw [← h, hrest]
          simp [List.filterMap_cons, hf]
        | some f =>
          simp only [expure, Except.ok.injEq] at h
          rw [← h, hrest]
          simp [List.filterMap_cons, hf]

/-- C9: when the conversion loop succeeds, the output feature collection
lists its features in exactly the same relative order as their source
elements appeared in the payload's element list: the features array is
the in-order filter-map of the per-element dispatch over the element
list. -/
theorem C9_order_preserved (kvs : List (String × JValue)) (elements : List JValue)
    (nodes : List (JValue × JValue)) (feats : List JValue)
    (helems : pyLookup kvs "elements" = some (.arr elements))
    (hnodes : build_node_index [] elements = .ok nodes)
    (hproc : process_elements nodes elements = .ok feats) :
    convert_overpass_to_geojson (.obj kvs) =
      .ok (.obj [("type", .str "FeatureCollection"),
        ("features", .arr (elements.filterMap (fun e =>
          match elementFeature nodes e with
          | .ok fOpt => fOpt
          | .error _ => none)))]) := by
  have hfeats := process_elements_filterMap nodes elements feats hproc
  simp only [convert_overpass_to_geojson, pyGetD, helems, Option.getD_some,
    exbind_ok, pyIter, hnodes, hproc, expure, ← hfeats]

/-- Witness for C9: elements `[point A, way B, point C]` all convert, and
the output order is `[Point(A), LineString(B), Point(C)]`. -/
theorem C9_order_preserved_witness :
    convert_overpass_to_geojson (.obj [("elements", .arr [
      .obj [("type", .str "node"), ("id", .num 1), ("lat", .num 10), ("lon", .num 20)],
      .obj [("type", .str "way"), ("id", .num 9), ("nodes", .arr [.num 1, .num 3]),
        ("tags", .obj [("highway", .str "residential")])],
      .obj [("type", .str "node"), ("id", .num 3), ("lat", .num 11), ("lon", .num 21)]])]) =
      .ok (.obj [("type", .str "FeatureCollection"), ("features", .arr [
        .obj [("type", .str "Feature"), ("id", .str "node/1"),
          ("geometry", .obj [("type", .str "Point"),
            ("coordinates", .arr [.num 20, .num 10])]),
          ("properties", .obj [])],
        .obj [("type", .str "Feature"), ("id", .str "way/9"),
          ("geometry", .obj [("type", .str "LineString"),
            ("coordinates", .arr [.arr [.num 20, .num 10], .arr [.num 21, .num 11]])]),
          ("properties", .obj [("highway", .str "residential")])],
        .obj [("type", .str "Feature"), ("id", .str "node/3"),
          ("geometry", .obj [("type", .str "Point"),
            ("coordinates", .arr [.num 21, .num 11])]),
          ("properties", .obj [])]])]) :=
  (C9_order_preserved
    [("elements", .arr [
      .obj [("type", .str "node"), ("id", .num 1), ("lat", .num 10), ("lon", .num 20)],
      .obj [("type", .str "way"), ("id", .num 9), ("nodes", .arr [.num 1, .num 3]),
        ("tags", .obj [("highway", .str "residential")])],
      .obj [("type", .str "node"), ("id", .num 3), ("lat", .num 11), ("lon", .num 21)]])]
    [.obj [("type", .str "node"), ("id", .num 1), ("lat", .num 10), ("lon", .num 20)],
      .obj [("type", .str "way"), ("id", .num 9), ("nodes", .arr [.num 1, .num 3]),
        ("tags", .obj [("highway", .str "residential")])],
      .obj [("type", .str "node"), ("id", .num 3), ("lat", .num 11), ("lon", .num 21)]]
    [(.num 3, .obj [("lat", .num 11), ("lon", .num 21)]),
      (.num 1, .obj [("lat", .num 10), ("lon", .num 20)])]
    [.obj [("type", .str "Feature"), ("id", .str "node/1"),
        ("geometry", .obj [("type", .str "Point"),
          ("coordinates", .arr [.num 20, .num 10])]),
        ("properties", .obj [])],
      .obj [("type", .str "Feature"), ("id", .str "way/9"),
        ("geometry", .obj [("type", .str "LineString"),
          ("coordinates", .arr [.arr [.num 20, .num 10], .arr [.num 21, .num 11]])]),
        ("properties", .obj [("highway", .str "residential")])],
      .obj [("type", .str "Feature"), ("id", .str "node/3"),
        ("geometry", .obj [("type", .str "Point"),
          ("coordinates", .arr [.num 21, .num 11])]),
        ("properties", .obj [])]]
    rfl rfl rfl).trans rfl

/-! ### Claim C10 -/

/-- C10: a node element whose `lat`/`lon` are missing or null still gets
a Node Index entry carrying the possibly-null values as-is; a way
referencing that identifier appends the (possibly null) pair to its
coordinate list instead of skipping the reference; and such null pairs
count toward the minimum-length gate and participate in the
first-equals-last closure comparison — concretely, a way referencing a
coordinate-less node four times, tagged `building=yes`, becomes a Polygon
whose ring is four `[null, null]` pairs. -/
theorem C10_null_coordinates_flow_through (nkvs : List (String × JValue))
    (idv : JValue)
    (htype : pyLookup nkvs "type" = some (.str "node"))
    (hid : pyLookup nkvs "id" = some idv) :
    (build_node_index [] [.obj nkvs] = .ok [(idv, .obj [
      ("lat", (pyLookup nkvs "lat").getD .null),
      ("lon", (pyLookup nkvs "lon").getD .null)])])
    ∧ (∀ (wkvs : List (String × JValue)) (ids : List JValue),
        pyLookup wkvs "geometry" = none →
        pyLookup wkvs "nodes" = some (.arr ids) →
        resolve_coordinates (.obj wkvs)
            [(idv, .obj [("lat", (pyLookup nkvs "lat").getD .null),
              ("lon", (pyLookup nkvs "lon").getD .null)])] =
          .ok (ids.filterMap (fun i => if idv = i
            then some (.arr [(pyLookup nkvs "lon").getD .null,
              (pyLookup nkvs "lat").getD .null])
            else none)))
    ∧ convert_overpass_to_geojson (.obj [("elements", .arr [
        .obj [("type", .str "node"), ("id", .num 1)],
        .obj [("type", .str "way"), ("id", .num 9),
          ("nodes", .arr [.num 1, .num 1, .num 1, .num 1]),
          ("tags", .obj [("building", .str "yes")])]])]) =
      .ok (.obj [("type", .str "FeatureCollection"), ("features", .arr [
        .obj [("type", .str "Feature"), ("id", .str "way/9"),
          ("geometry", .obj [("type", .str "Polygon"),
            ("coordinates", .arr [.arr [
              .arr [.null, .null], .arr [.null, .null],
              .arr [.null, .null], .arr [.null, .null]]])]),
          ("properties", .obj [("building", .str "yes")])]])]) := by
  refine ⟨?_, ?_, rfl⟩
  · simp [build_node_index, pyGet, pySubscr, htype, hid]
  · intro wkvs ids hgeom hnodes
    have hinv : ∀ kv ∈ [(idv, JValue.obj [
        ("lat", (pyLookup nkvs "lat").getD .null),
        ("lon", (pyLookup nkvs "lon").getD .null)])],
        ∃ lat lon, kv.2 = JValue.obj [("lat", lat), ("lon", lon)] := by
      intro kv hkv
      rw [List.mem_singleton] at hkv
      rw [hkv]
      exact ⟨_, _, rfl⟩
    rw [show resolve_coordinates (.obj wkvs)
        [(idv, JValue.obj [("lat", (pyLookup nkvs "lat").getD .null),
          ("lon", (pyLookup nkvs "lon").getD .null)])] =
        lookup_node_refs
          [(idv, JValue.obj [("lat", (pyLookup nkvs "lat").getD .null),
            ("lon", (pyLookup nkvs "lon").getD .null)])] [] ids from by
      simp [resolve_coordinates, pyContains, hgeom, hnodes, pySubscr, pyIter]]
    rw [lookup_node_refs_eq _ hinv ids []]
    simp only [List.nil_append, Except.ok.injEq]
    apply List.filterMap_congr
    intro i _
    by_cases hii : idv = i
    · subst hii
      simp [assocFind, featureField, pyLookup]
    · simp [assocFind, if_neg hii, hii]

/-- Witness for C10: node 1 with no coordinates is indexed as
`{"lat": null, "lon": null}`, and a way referencing ids `[1, 2]` resolves
to the single pair `[null, null]` (id 2 absent, id 1 present with
nulls). -/
theorem C10_null_coordinates_flow_through_witness :
    build_node_index [] [.obj [("type", .str "node"), ("id", .num 1)]] =
        .ok [(.num 1, .obj [("lat", .null), ("lon", .null)])]
    ∧ resolve_coordinates
        (.obj [("type", .str "way"), ("id", .num 9),
          ("nodes", .arr [.num 1, .num 2])])
        [(.num 1, .obj [("lat", .null), ("lon", .null)])] =
      .ok [.arr [.null, .null]] := by
  have h := C10_null_coordinates_flow_through
    [("type", .str "node"), ("id", .num 1)] (.num 1) rfl rfl
  exact ⟨h.1.trans rfl,
    (h.2.1 [("type", .str "way"), ("id", .num 9), ("nodes", .arr [.num 1, .num 2])]
      [.num 1, .num 2] rfl rfl).trans rfl⟩
